import Mathlib

/-!
Shallow embedding of `server_update.py` (PaperMC-Update): the download loop,
the update check, config parsing, the install/backup/recover sequence, the
selection resolution and the orchestrator's state update.  File contents are
modelled as lists of bytes (`List Nat`); fallible operations return values
tagged with the Python exception class they raise; injected I/O failures are
supplied through explicit oracle records.
-/

namespace ServerUpdate

/-- Python exception classes that the modelled code can raise or catch. -/
inductive PyErr
  | fnf         -- FileNotFoundError
  | ioerr       -- other OSError / shutil failure
  | keyError    -- KeyError from dict lookup
  | typeError   -- TypeError from subscripting a non-dict
  | valueError  -- ValueError from int() or tuple unpacking
  | indexError  -- IndexError from list[0] on an empty list
deriving DecidableEq, Repr

/-- File contents are byte sequences. -/
abbrev ByteSeq := List Nat

/-! ## Download manager (`Update.download`, `Update._progress_bar`) -/

/-- `blocksize = 4608` from `Update.download`. -/
def blocksize : Nat := 4608

/-- Models Python `ceil(a / b)` on non-negative integers. -/
def ceilDiv (a b : Nat) : Nat := (a + b - 1) / b

/-- The network behaviour one `download` call observes: whether `urlopen`
raises, the `content-length` header, the body bytes the stream serves, and
(optionally) the index of the `read` call that raises mid-stream. -/
structure Net where
  connectFail : Bool
  length : Nat
  body : ByteSeq
  failAt : Option Nat
deriving DecidableEq, Repr

/-- The download loop of `Update.download` driven by `_progress_bar`:
iterates `total` times (here as `fuel`, counting down while `i` counts up);
each iteration reads a chunk of at most `blocksize` bytes and appends it to
the destination file (`chunks` records each write), then — unless quiet —
renders the progress counter `i*step` for all but the last iteration and
`endv` for the last.  A read failure at index `i` aborts with `False` after
closing the file, keeping the bytes written so far. -/
def dlLoop (quiet : Bool) (failAt : Option Nat) (total step endv : Nat) :
    Nat → Nat → ByteSeq → List ByteSeq → List Nat →
    Bool × List ByteSeq × List Nat
  | 0, _, _, chunks, prog => (true, chunks, prog)
  | fuel + 1, i, body, chunks, prog =>
    if failAt = some i then (false, chunks, prog)
    else
      let chunk := body.take blocksize
      let prog2 := if quiet then prog
                   else prog ++ [if i < total - 1 then i * step else endv]
      dlLoop quiet failAt total step endv fuel (i + 1) (body.drop blocksize)
        (chunks ++ [chunk]) prog2

/-- `Update.download`: on connection failure returns `False` with nothing
written; otherwise runs the chunk loop `ceil(length/blocksize) + 1` times.
Returns (success, list of chunks written to the file, progress counters
rendered). -/
def download (quiet : Bool) (net : Net) : Bool × List ByteSeq × List Nat :=
  if net.connectFail then (false, [], [])
  else
    let total := ceilDiv net.length blocksize + 1
    dlLoop quiet net.failAt total blocksize net.length total 0 net.body [] []

/-! ## Update check (`ServerUpdater.check`) -/

/-- Models Python `str()` on the stored integer build number. -/
def pyStr (n : Int) : String := toString n

/-- `ServerUpdater.check`: `remoteVersions` is the result of
`get_versions()` (`none` on network failure), `remoteBuilds` the result of
`get_buildnums(version)` (`none` on network failure), consulted only when
the newest remote version equals the installed one.  `list[0]` on an empty
list raises `IndexError`. -/
def check (remoteVersions remoteBuilds : Option (List String))
    (version : String) (buildnum : Int) : Except PyErr Bool :=
  match remoteVersions with
  | none => .ok false
  | some [] => .error .indexError
  | some (v0 :: _) =>
    if v0 ≠ version then .ok true
    else
      match remoteBuilds with
      | none => .ok false
      | some [] => .error .indexError
      | some (b0 :: _) => .ok (b0 != pyStr buildnum)

/-! ## Config reader (`FileUtil.load_config`) -/

/-- JSON values as produced by `json.load`. -/
inductive Json
  | null
  | bool (b : Bool)
  | num (n : Int)
  | str (s : String)
  | arr (xs : List Json)
  | obj (fields : List (String × Json))

/-- The observable state of the config file: absent (or not a regular
file), present but unreadable / not valid JSON (`json.load` raises), or
valid JSON with the parsed value. -/
inductive ConfigFile
  | absent
  | invalid
  | valid (data : Json)

/-- Models Python `data[key]` on the value returned by `json.load`:
`KeyError` when the dict lacks the key, `TypeError` when the value is not a
dict (string indices into lists, strings, numbers, booleans or null). -/
def jsonGetField (data : Json) (key : String) : Except PyErr Json :=
  match data with
  | .obj fields =>
    match fields.lookup key with
    | some v => .ok v
    | none => .error .keyError
  | _ => .error .typeError

/-- Models Python `s.split(" ", 1)` followed by unpacking into two names:
`some (before, after)` when a space occurs, `none` when the split yields a
single element and the unpacking raises `ValueError`. -/
def splitOnce : List Char → Option (List Char × List Char)
  | [] => none
  | c :: rest =>
    if c = ' ' then some ([], rest)
    else
      match splitOnce rest with
      | some (a, b) => some (c :: a, b)
      | none => none

/-- Models Python `s.split("-")[-1]`: the suffix after the last dash (the
split keeps empty fields, and is never empty, so `[-1]` never raises). -/
def lastSplitDash (s : List Char) : List Char :=
  (s.reverse.takeWhile (fun c => c ≠ '-')).reverse

/-- Decimal digit value of a character, if any. -/
def digitVal (c : Char) : Option Nat :=
  if '0' ≤ c ∧ c ≤ '9' then some (c.toNat - '0'.toNat) else none

/-- Digit-run parser for Python `int`: accepts a non-empty run of decimal
digits with single underscores allowed only between digits. The accumulator
is `none` until the first digit has been seen. -/
def parseDigits : List Char → Option Nat → Option Nat
  | [], acc => acc
  | '_' :: c :: rest, some acc =>
    match digitVal c with
    | some d => parseDigits rest (some (acc * 10 + d))
    | none => none
  | '_' :: _, _ => none
  | c :: rest, acc =>
    match digitVal c with
    | some d => parseDigits rest (some (acc.getD 0 * 10 + d))
    | none => none

/-- Python whitespace stripped by `int()`. -/
def isPyWs (c : Char) : Bool :=
  c = ' ' ∨ c = '\t' ∨ c = '\n' ∨ c = '\r' ∨ c = '\x0b' ∨ c = '\x0c'

/-- Models Python `int(s)` on a decimal string: optional surrounding
whitespace, optional sign, then a digit run; anything else raises
`ValueError`. -/
def pyInt (s : List Char) : Except PyErr Int :=
  let t := ((s.dropWhile isPyWs).reverse.dropWhile isPyWs).reverse
  match t with
  | '+' :: rest =>
    match parseDigits rest none with
    | some n => .ok (Int.ofNat n)
    | none => .error .valueError
  | '-' :: rest =>
    match parseDigits rest none with
    | some n => .ok (-(Int.ofNat n))
    | none => .error .valueError
  | _ =>
    match parseDigits t none with
    | some n => .ok (Int.ofNat n)
    | none => .error .valueError

/-- Models Python `s[5:-1]`: the elements from index 5 up to (excluding)
the last; slicing clamps and never raises. -/
def slice5ToLast (s : List Char) : List Char := (s.take (s.length - 1)).drop 5

/-- The `try` block of `FileUtil.load_config` over the field string:
`build, version = current.split(" ", 1)`, `build = int(build.split("-")[-1])`,
`version = version[5:-1]`; `none` when one of the caught exceptions
(`ValueError` from unpacking or `int`) occurs. -/
def parseCurrent (s : List Char) : Option (List Char × Int) :=
  match splitOnce s with
  | none => none
  | some (build, version) =>
    match pyInt (lastSplitDash build) with
    | .error _ => none
    | .ok n => some (slice5ToLast version, n)

/-- `FileUtil.load_config`: absent file and unreadable/non-JSON file return
the sentinel `("0", 0)`; on valid JSON the field access
`data['currentVersion']` is performed outside any `try`, so its `KeyError` /
`TypeError` escapes; a present non-string field and a string the `try`
block cannot decompose return the sentinel. -/
def load_config : ConfigFile → Except PyErr (String × Int)
  | .absent => .ok ("0", 0)
  | .invalid => .ok ("0", 0)
  | .valid data =>
    match jsonGetField data "currentVersion" with
    | .error e => .error e
    | .ok (.str s) =>
      match parseCurrent s.data with
      | some (v, b) => .ok (String.mk v, b)
      | none => .ok ("0", 0)
    | .ok _ => .ok ("0", 0)

/-! ## Install manager (`FileUtil.install`, `FileUtil._recover_backup`)

The filesystem locations the install sequence touches: the target file
(`self.path`), `{tempdir}/backup` and `{tempdir}/download_data`.  Injected
I/O failures (permissions, disk errors, ...) are supplied by a `Faults`
oracle; `FileNotFoundError` arises deterministically from the filesystem
state. -/

structure FS where
  target : Option ByteSeq
  backup : Option ByteSeq
  download : Option ByteSeq
deriving DecidableEq, Repr

/-- Injected failures for one run of `install`, one flag per operation
site; for a failing `shutil.copyfile` the oracle also chooses the content
the destination is left with (the destination is truncated and possibly
partly written before the error). -/
structure Faults where
  backupCopy : Bool
  backupDst : Option ByteSeq
  remove : Bool
  copyIn : Bool
  copyInDst : Option ByteSeq
  recRemove : Bool
  recCopy : Bool
  recCopyDst : Option ByteSeq
deriving DecidableEq, Repr

/-- The diagnostics the install sequence prints, abstracted to tags. -/
inductive FailPoint
  | backup    -- "File Backup"
  | deletion  -- "Old File Deletion"
  | copy      -- "File Copy"
deriving DecidableEq, Repr

inductive Msg
  | failInstall (point : FailPoint)  -- `_fail_install` banner
  | errorReport                      -- `error_report`
  | recoveryStart                    -- `_recover_backup` banner
  | recoveryCritical                 -- "# Critical error during recovery process!"
  | recoveryComplete                 -- "Recovery process complete!"
deriving DecidableEq, Repr

/-- Models `shutil.copyfile(src, dst)`: a missing source raises
`FileNotFoundError` before the destination is opened; an injected failure
leaves the destination as the oracle says; on success the destination holds
the source bytes.  Returns (raised exception if any, new destination). -/
def copyfile (src dst : Option ByteSeq) (inj : Bool) (dstOnErr : Option ByteSeq) :
    Option PyErr × Option ByteSeq :=
  match src with
  | none => (some .fnf, dst)
  | some c => if inj then (some .ioerr, dstOnErr) else (none, some c)

/-- Models `os.remove(path)`: a missing file raises `FileNotFoundError`; an
injected failure leaves the file in place; on success the file is gone. -/
def osRemove (file : Option ByteSeq) (inj : Bool) : Option PyErr × Option ByteSeq :=
  match file with
  | none => (some .fnf, none)
  | some c => if inj then (some .ioerr, some c) else (none, none)

/-- Second half of `FileUtil._recover_backup`:
`shutil.copyfile({tempdir}/backup, self.path)`; any exception (including a
missing backup) is caught by `except Exception` and reported critical. -/
def recoverCopy (f : Faults) (fs : FS) : Bool × FS × List Msg :=
  match copyfile fs.backup fs.target f.recCopy f.recCopyDst with
  | (some _, t) => (false, { fs with target := t }, [.recoveryCritical])
  | (none, t) => (true, { fs with target := t }, [.recoveryComplete])

/-- `FileUtil._recover_backup`: delete the target (tolerating
`FileNotFoundError` as non-fatal, any other exception is critical), then
copy the backup over the target path. -/
def recover_backup (f : Faults) (fs : FS) : Bool × FS × List Msg :=
  match osRemove fs.target f.recRemove with
  | (some .fnf, t) =>
    let r := recoverCopy f { fs with target := t }
    (r.1, r.2.1, .recoveryStart :: r.2.2)
  | (some _, t) => (false, { fs with target := t }, [.recoveryStart, .recoveryCritical])
  | (none, t) =>
    let r := recoverCopy f { fs with target := t }
    (r.1, r.2.1, .recoveryStart :: r.2.2)

/-- `FileUtil.install`: copy the target to `{tempdir}/backup` (failure:
report and return `False`, nothing deleted, no recovery), delete the target
(failure: report, recover, return `False`), copy
`{tempdir}/download_data` over the target (failure: report, recover, return
`False`), and on success clean up the temporary directory. -/
def install (f : Faults) (fs : FS) : Bool × FS × List Msg :=
  match copyfile fs.target fs.backup f.backupCopy f.backupDst with
  | (some _, b) =>
    (false, { fs with backup := b }, [.failInstall .backup, .errorReport])
  | (none, b) =>
    let fs1 : FS := { fs with backup := b }
    match osRemove fs1.target f.remove with
    | (some _, t) =>
      let r := recover_backup f { fs1 with target := t }
      (false, r.2.1, [.failInstall .deletion, .errorReport] ++ r.2.2)
    | (none, t) =>
      let fs2 : FS := { fs1 with target := t }
      match copyfile fs2.download fs2.target f.copyIn f.copyInDst with
      | (some _, t2) =>
        let r := recover_backup f { fs2 with target := t2 }
        (false, r.2.1, [.failInstall .copy, .errorReport] ++ r.2.2)
      | (none, t2) =>
        (true, { fs2 with target := t2, backup := none, download := none }, [])

/-! ## Selection resolution (`ServerUpdater._select`) -/

/-- Models Python `s.lower()` (ASCII). -/
def pyLower (s : String) : String := s.map Char.toLower

/-- `ServerUpdater._select`: empty input is replaced by the default; the
keyword `latest` picks the first candidate (the announcement line formats
`self._available_versions[0]` before `choice[0]` is read, so either list
being empty raises `IndexError`); otherwise the value must be a member of
the candidate list or the selection is rejected as `(False, "")`. -/
def select (val : String) (choice : List String) (dflt : String)
    (availableVersions : List String) : Except PyErr (Bool × String) :=
  let v := if val = "" then dflt else val
  if v = "latest" then
    match availableVersions with
    | [] => .error .indexError
    | _ :: _ =>
      match choice with
      | [] => .error .indexError
      | c :: _ => .ok (true, c)
  else if v ∈ choice then .ok (true, v)
  else .ok (false, "")

/-! ## Orchestrator state update (`ServerUpdater.get_new`) -/

/-- The dynamic type of `self.buildnum`: an integer when it came from the
config file (or the default `0`), a string once assigned from a
selection. -/
inductive BuildVal
  | int (n : Int)
  | str (s : String)
deriving DecidableEq, Repr

/-- What one `get_new` run observes from its collaborators: the result of
`version_select` (`none` when it returned `(None, None)`), whether the
confirmation prompt runs (`self.prompt`), the reply typed there, and the
results of `download` and `install`. -/
structure GetNewEnv where
  selection : Option (String × String)
  prompt : Bool
  confirmInput : String
  downloadOk : Bool
  installOk : Bool
deriving DecidableEq, Repr

/-- `ServerUpdater.get_new` restricted to its effect on the in-memory
installed state `(self.version, self.buildnum)`: every early return leaves
it unchanged; only after `download` and `install` both succeed is it
assigned the selected pair. -/
def get_new (env : GetNewEnv) (version : String) (buildnum : BuildVal) :
    String × BuildVal :=
  match env.selection with
  | none => (version, buildnum)
  | some (ver, build) =>
    if env.prompt ∧ pyLower env.confirmInput ∈ ["n", "no"] then (version, buildnum)
    else if env.downloadOk = false then (version, buildnum)
    else if env.installOk = false then (version, buildnum)
    else (ver, .str build)

/-! ## Lemmas about the download loop -/

/-- The chunk sequence the loop reads: `fuel` successive `read(blocksize)`
results (reads past the end of the body return the empty chunk). -/
def readChunks : Nat → ByteSeq → List ByteSeq
  | 0, _ => []
  | fuel + 1, body => body.take blocksize :: readChunks fuel (body.drop blocksize)

lemma dlLoop_quiet_indep (q1 q2 : Bool) (failAt : Option Nat) (total step endv : Nat) :
    ∀ (fuel i : Nat) (body : ByteSeq) (chunks : List ByteSeq) (prog1 prog2 : List Nat),
    (dlLoop q1 failAt total step endv fuel i body chunks prog1).1 =
      (dlLoop q2 failAt total step endv fuel i body chunks prog2).1 ∧
    (dlLoop q1 failAt total step endv fuel i body chunks prog1).2.1 =
      (dlLoop q2 failAt total step endv fuel i body chunks prog2).2.1 := by
  intro fuel
  induction fuel with
  | zero => intro i body chunks prog1 prog2; exact ⟨rfl, rfl⟩
  | succ fuel ih =>
    intro i body chunks prog1 prog2
    by_cases h : failAt = some i
    · simp [dlLoop, h]
    · simp only [dlLoop, if_neg h]
      exact ih (i + 1) (body.drop blocksize) (chunks ++ [body.take blocksize]) _ _

lemma dlLoop_no_fail_fst (q : Bool) (total step endv : Nat) :
    ∀ (fuel i : Nat) (body : ByteSeq) (chunks : List ByteSeq) (prog : List Nat),
    (dlLoop q none total step endv fuel i body chunks prog).1 = true := by
  intro fuel
  induction fuel with
  | zero => intro i body chunks prog; rfl
  | succ fuel ih =>
    intro i body chunks prog
    simp only [dlLoop, if_neg (by simp : ¬ (none : Option Nat) = some i)]
    exact ih (i + 1) (body.drop blocksize) (chunks ++ [body.take blocksize]) _

lemma dlLoop_no_fail_chunks (q : Bool) (total step endv : Nat) :
    ∀ (fuel i : Nat) (body : ByteSeq) (chunks : List ByteSeq) (prog : List Nat),
    (dlLoop q none total step endv fuel i body chunks prog).2.1 =
      chunks ++ readChunks fuel body := by
  intro fuel
  induction fuel with
  | zero => intro i body chunks prog; simp [dlLoop, readChunks]
  | succ fuel ih =>
    intro i body chunks prog
    simp only [dlLoop, if_neg (by simp : ¬ (none : Option Nat) = some i)]
    rw [ih (i + 1) (body.drop blocksize) (chunks ++ [body.take blocksize]) _]
    simp [readChunks]

lemma dlLoop_last_progress (total step endv : Nat) :
    ∀ (fuel i : Nat) (body : ByteSeq) (chunks : List ByteSeq) (prog : List Nat),
    i + fuel = total → 1 ≤ fuel →
    (dlLoop false none total step endv fuel i body chunks prog).2.2.getLast? =
      some endv := by
  intro fuel
  induction fuel with
  | zero => intro i body chunks prog _ h; omega
  | succ fuel ih =>
    intro i body chunks prog htot _
    cases fuel with
    | zero =>
      have hlt : ¬ i < total - 1 := by omega
      simp [dlLoop, hlt]
    | succ fuel2 =>
      simp only [dlLoop, if_neg (by simp : ¬ (none : Option Nat) = some i)]
      exact ih (i + 1) (body.drop blocksize) (chunks ++ [body.take blocksize]) _
        (by omega) (by omega)

lemma readChunks_length (fuel : Nat) : ∀ body : ByteSeq,
    (readChunks fuel body).length = fuel := by
  induction fuel with
  | zero => intro body; rfl
  | succ fuel ih => intro body; simp [readChunks, ih]

lemma readChunks_flatten : ∀ (fuel : Nat) (body : ByteSeq),
    body.length ≤ fuel * blocksize → (readChunks fuel body).flatten = body := by
  intro fuel
  induction fuel with
  | zero =>
    intro body h
    have hb : body = [] := List.eq_nil_of_length_eq_zero (by omega)
    simp [hb, readChunks]
  | succ fuel ih =>
    intro body h
    simp only [readChunks, List.flatten_cons]
    rw [ih (body.drop blocksize) ?_]
    · exact List.take_append_drop blocksize body
    · have hd : (body.drop blocksize).length = body.length - blocksize :=
        List.length_drop blocksize body
      simp only [blocksize] at h hd ⊢
      omega

lemma ceilDiv_sub_blocksize (n : Nat) (h : 1 ≤ n) :
    ceilDiv n blocksize = ceilDiv (n - blocksize) blocksize + 1 := by
  simp only [ceilDiv, blocksize]
  omega

lemma readChunks_nil_filter (fuel : Nat) :
    (readChunks fuel []).filter (fun c => !c.isEmpty) = [] := by
  induction fuel with
  | zero => rfl
  | succ fuel ih => simp [readChunks, ih]

lemma readChunks_count : ∀ (fuel : Nat) (body : ByteSeq),
    body.length ≤ fuel * blocksize →
    ((readChunks fuel body).filter (fun c => !c.isEmpty)).length =
      ceilDiv body.length blocksize := by
  intro fuel
  induction fuel with
  | zero =>
    intro body h
    have hb : body = [] := List.eq_nil_of_length_eq_zero (by omega)
    simp [hb, readChunks, ceilDiv, blocksize]
  | succ fuel ih =>
    intro body h
    cases body with
    | nil =>
      rw [readChunks_nil_filter (fuel + 1)]
      simp [ceilDiv, blocksize]
    | cons x xs =>
      have hlen : 1 ≤ (x :: xs).length := by simp
      have hd : ((x :: xs).drop blocksize).length ≤ fuel * blocksize := by
        have hdl : ((x :: xs).drop blocksize).length = (x :: xs).length - blocksize :=
          List.length_drop blocksize (x :: xs)
        simp only [blocksize] at h hdl ⊢
        omega
      have hne : (!((x :: xs).take blocksize).isEmpty) = true := by
        simp [blocksize]
      simp only [readChunks, List.filter_cons, hne, if_pos]
      rw [List.length_cons, ih ((x :: xs).drop blocksize) hd, List.length_drop]
      conv_rhs => rw [ceilDiv_sub_blocksize ((x :: xs).length) hlen]

lemma le_ceilDiv_succ_mul (n : Nat) : n ≤ (ceilDiv n blocksize + 1) * blocksize := by
  simp only [ceilDiv, blocksize]
  omega

/-- C9: for every fixed network behaviour, running `download` quiet and
non-quiet yields the same success flag, the same chunk sequence written,
and hence the same destination-file bytes; quiet mode suppresses only the
progress side channel. -/
theorem download_quiet_same_result (net : Net) :
    (download true net).1 = (download false net).1 ∧
    (download true net).2.1 = (download false net).2.1 ∧
    (download true net).2.1.flatten = (download false net).2.1.flatten := by
  cases hc : net.connectFail
  case true => simp [download, hc]
  case false =>
    simp only [download, hc, Bool.false_eq_true, if_false]
    obtain ⟨h1, h2⟩ := dlLoop_quiet_indep true false net.failAt
      (ceilDiv net.length blocksize + 1) blocksize net.length
      (ceilDiv net.length blocksize + 1) 0 net.body [] [] []
    exact ⟨h1, h2, by rw [h2]⟩

/-- C5: with declared content length `N` matching the body, the loop
performs `ceil(N/4608) + 1` reads; the chunks of the body (the non-empty
reads) number exactly `ceil(N/4608)`; every byte of the body is written;
and the final progress counter is exactly `N` (this also covers `N` not a
multiple of 4608 and `N = 0`). -/
theorem download_chunk_arithmetic (body : ByteSeq) (N : Nat) (h : body.length = N) :
    (download false ⟨false, N, body, none⟩).1 = true ∧
    (download false ⟨false, N, body, none⟩).2.1.flatten = body ∧
    (download false ⟨false, N, body, none⟩).2.1.length = ceilDiv N blocksize + 1 ∧
    ((download false ⟨false, N, body, none⟩).2.1.filter
        (fun c => !c.isEmpty)).length = ceilDiv N blocksize ∧
    (download false ⟨false, N, body, none⟩).2.2.getLast? = some N := by
  subst h
  have hdl : download false ⟨false, body.length, body, none⟩ =
      dlLoop false none (ceilDiv body.length blocksize + 1) blocksize body.length
        (ceilDiv body.length blocksize + 1) 0 body [] [] := rfl
  rw [hdl]
  have hch := dlLoop_no_fail_chunks false (ceilDiv body.length blocksize + 1)
    blocksize body.length (ceilDiv body.length blocksize + 1) 0 body [] []
  simp only [List.nil_append] at hch
  have hbound : body.length ≤ (ceilDiv body.length blocksize + 1) * blocksize :=
    le_ceilDiv_succ_mul body.length
  refine ⟨dlLoop_no_fail_fst _ _ _ _ _ _ _ _ _, ?_, ?_, ?_, ?_⟩
  · rw [hch, readChunks_flatten _ _ hbound]
  · rw [hch, readChunks_length]
  · rw [hch, readChunks_count _ _ hbound]
  · exact dlLoop_last_progress _ _ _ _ 0 body [] [] (by omega) (by omega)

/-- C5 witness at `N = 2` (not a multiple of 4608). -/
theorem download_chunk_arithmetic_witness :
    (download false ⟨false, 2, [7, 9], none⟩).1 = true ∧
    (download false ⟨false, 2, [7, 9], none⟩).2.1.flatten = [7, 9] ∧
    (download false ⟨false, 2, [7, 9], none⟩).2.1.length = ceilDiv 2 blocksize + 1 ∧
    ((download false ⟨false, 2, [7, 9], none⟩).2.1.filter
        (fun c => !c.isEmpty)).length = ceilDiv 2 blocksize ∧
    (download false ⟨false, 2, [7, 9], none⟩).2.2.getLast? = some 2 :=
  download_chunk_arithmetic [7, 9] 2 rfl

/-! ## Theorems about the update check -/

/-- C3: when the newest remote version differs from the installed one,
`check` reports `True` without consulting the build list at all (any build
response, including an unavailable one, gives the same result); when the
newest remote version equals the installed one, `check` reports `True`
exactly when the newest remote build differs from the stringified installed
build, and `False` when both match. -/
theorem check_version_build_logic (v0 version b0 : String) (vs bs : List String)
    (bn : Int) :
    (∀ rb : Option (List String), v0 ≠ version →
      check (some (v0 :: vs)) rb version bn = .ok true) ∧
    check (some (version :: vs)) (some (b0 :: bs)) version bn =
      .ok (b0 != pyStr bn) := by
  constructor
  · intro rb hne
    simp [check, hne]
  · simp [check]

/-- C3 witness: a newer remote version wins even with no build data. -/
theorem check_version_build_logic_witness :
    check (some ["1.17", "1.16.5"]) none "1.16.5" 205 = .ok true :=
  (check_version_build_logic "1.17" "1.16.5" "205" ["1.16.5"] [] 205).1 none
    (by decide)

/-- C4: `check` fails closed — if the version fetch errors it returns
`False` whatever the build data would have been, and if versions match but
the build fetch errors it returns `False`; it never reports an update when
remote information is unavailable. -/
theorem check_fail_closed (rb : Option (List String)) (version : String)
    (bn : Int) (vs : List String) :
    check none rb version bn = .ok false ∧
    check (some (version :: vs)) none version bn = .ok false := by
  constructor
  · simp [check]
  · simp [check]

/-! ## Theorems about the config reader -/

/-- C2 counterexample: a valid JSON object that lacks the expected field
makes `load_config` raise `KeyError` instead of returning the sentinel —
the field access `data['currentVersion']` is outside every `try`. -/
theorem load_config_missing_field_raises :
    load_config (.valid (.obj [])) = .error .keyError := rfl

/-- C2 amended: `load_config` returns the sentinel `("0", 0)` when the file
is absent, when it is unreadable or not valid JSON, when the field is
present but not a string, and when the field string defeats the
split/int-parse decomposition; the only exceptions that escape are the
`KeyError`/`TypeError` raised by the `data['currentVersion']` access on
valid JSON. -/
theorem load_config_amended :
    (load_config .absent = .ok ("0", 0)) ∧
    (load_config .invalid = .ok ("0", 0)) ∧
    (∀ (cfg : ConfigFile) (e : PyErr), load_config cfg = .error e →
      ∃ d, cfg = .valid d ∧ jsonGetField d "currentVersion" = .error e) ∧
    (∀ (d j : Json), jsonGetField d "currentVersion" = .ok j →
      (∀ s, j ≠ .str s) → load_config (.valid d) = .ok ("0", 0)) ∧
    (∀ (d : Json) (s : String), jsonGetField d "currentVersion" = .ok (.str s) →
      parseCurrent s.data = none → load_config (.valid d) = .ok ("0", 0)) := by
  refine ⟨rfl, rfl, ?_, ?_, ?_⟩
  · intro cfg e h
    cases cfg with
    | absent => exact absurd h (by simp [load_config])
    | invalid => exact absurd h (by simp [load_config])
    | valid d =>
      refine ⟨d, rfl, ?_⟩
      simp only [load_config] at h
      split at h
      · rename_i e2 heq
        cases h
        exact heq
      · split at h <;> simp at h
      · simp at h
  · intro d j hj hns
    cases j with
    | str s => exact absurd rfl (hns s)
    | null => simp [load_config, hj]
    | bool b => simp [load_config, hj]
    | num n => simp [load_config, hj]
    | arr xs => simp [load_config, hj]
    | obj fields => simp [load_config, hj]
  · intro d s hj hp
    simp [load_config, hj, hp]

/-- C2 amended witness: a string field that does not split at a space
degrades to the sentinel without raising. -/
theorem load_config_amended_witness :
    load_config (.valid (.obj [("currentVersion", .str "build")])) = .ok ("0", 0) :=
  load_config_amended.2.2.2.2 (.obj [("currentVersion", .str "build")]) "build"
    rfl rfl

/-- C7: the well-formed config value `"build-205 (MC: 1.16.5)"` parses to
the pair `("1.16.5", 205)` with the build as an integer. -/
theorem load_config_wellformed_example :
    load_config (.valid (.obj [("currentVersion", .str "build-205 (MC: 1.16.5)")])) =
      .ok ("1.16.5", 205) := rfl

/-! ## Theorems about the install sequence -/

/-- C1: whenever the delete step or the copy-in step of `install` fails
(after a successful backup), `install` returns `False` and, after the
automatic recovery, the target file again holds its pre-attempt bytes — or
recovery itself failed, in which case the critical-recovery diagnostic is
emitted; the step failure is reported either way.  In particular the system
never ends with the original bytes lost silently. -/
theorem install_failure_recovers_or_critical (f : Faults) (b d : Option ByteSeq)
    (orig : ByteSeq) (h2 : f.backupCopy = false)
    (h3 : f.remove = true ∨ f.copyIn = true ∨ d = none) :
    (install f ⟨some orig, b, d⟩).1 = false ∧
    ((install f ⟨some orig, b, d⟩).2.1.target = some orig ∨
      Msg.recoveryCritical ∈ (install f ⟨some orig, b, d⟩).2.2) ∧
    Msg.errorReport ∈ (install f ⟨some orig, b, d⟩).2.2 := by
  obtain ⟨bc, bDst, rm, ci, ciDst, rr, rc, rcDst⟩ := f
  simp only at h2 h3
  subst h2
  cases rm with
  | true =>
    cases rr <;> cases rc <;>
      simp [install, copyfile, osRemove, recover_backup, recoverCopy]
  | false =>
    rcases h3 with h | h | h
    · exact absurd h (by simp)
    · subst h
      cases d with
      | none =>
        cases rc <;>
          simp [install, copyfile, osRemove, recover_backup, recoverCopy]
      | some dd =>
        cases ciDst with
        | none =>
          cases rc <;>
            simp [install, copyfile, osRemove, recover_backup, recoverCopy]
        | some p =>
          cases rr <;> cases rc <;>
            simp [install, copyfile, osRemove, recover_backup, recoverCopy]
    · subst h
      cases ci <;> cases rc <;>
        simp [install, copyfile, osRemove, recover_backup, recoverCopy]

/-- C1 witness: the delete step fails, recovery succeeds, the target holds
its original bytes again and the failure was reported. -/
theorem install_failure_recovers_or_critical_witness :
    (install ⟨false, none, true, false, none, false, false, none⟩
        ⟨some [1], none, some [2]⟩).1 = false ∧
    ((install ⟨false, none, true, false, none, false, false, none⟩
        ⟨some [1], none, some [2]⟩).2.1.target = some [1] ∨
      Msg.recoveryCritical ∈ (install ⟨false, none, true, false, none, false, false, none⟩
        ⟨some [1], none, some [2]⟩).2.2) ∧
    Msg.errorReport ∈ (install ⟨false, none, true, false, none, false, false, none⟩
        ⟨some [1], none, some [2]⟩).2.2 :=
  install_failure_recovers_or_critical
    ⟨false, none, true, false, none, false, false, none⟩ none (some [2]) [1]
    rfl (Or.inl rfl)

/-- C6: when the initial backup copy fails, `install` returns `False`, the
target file is untouched (no deletion, no recovery — the diagnostics are
exactly the backup-failure report), and the failure is reported. -/
theorem install_backup_fail_frame (f : Faults) (fs : FS)
    (h : fs.target = none ∨ f.backupCopy = true) :
    (install f fs).1 = false ∧
    (install f fs).2.1.target = fs.target ∧
    (install f fs).2.2 = [Msg.failInstall .backup, Msg.errorReport] := by
  obtain ⟨t, b, d⟩ := fs
  obtain ⟨bc, bDst, rm, ci, ciDst, rr, rc, rcDst⟩ := f
  simp only at h
  rcases h with h | h
  · subst h
    simp [install, copyfile]
  · subst h
    cases t <;> simp [install, copyfile]

/-- C6 witness: an absent target makes the backup copy raise
`FileNotFoundError`; the install aborts with only the backup-failure
report. -/
theorem install_backup_fail_frame_witness :
    (install ⟨false, none, false, false, none, false, false, none⟩
        ⟨none, none, some [2]⟩).1 = false ∧
    (install ⟨false, none, false, false, none, false, false, none⟩
        ⟨none, none, some [2]⟩).2.1.target = (⟨none, none, some [2]⟩ : FS).target ∧
    (install ⟨false, none, false, false, none, false, false, none⟩
        ⟨none, none, some [2]⟩).2.2 = [Msg.failInstall .backup, Msg.errorReport] :=
  install_backup_fail_frame ⟨false, none, false, false, none, false, false, none⟩
    ⟨none, none, some [2]⟩ (Or.inl rfl)

/-! ## Theorems about selection resolution -/

/-- C8: `_select` substitutes the default for empty input (resolving
identically to entering the default), picks the first candidate for
`latest`, accepts a token exactly when it is a candidate, and otherwise
rejects with `(False, "")`; being a pure function of its inputs it mutates
no state. -/
theorem select_resolution (dflt c a : String) (cs as : List String) :
    (select "" (c :: cs) dflt (a :: as) = select dflt (c :: cs) dflt (a :: as)) ∧
    (dflt ≠ "latest" → dflt ∈ c :: cs →
      select "" (c :: cs) dflt (a :: as) = .ok (true, dflt)) ∧
    (select "latest" (c :: cs) dflt (a :: as) = .ok (true, c)) ∧
    (∀ v : String, v ≠ "" → v ≠ "latest" → v ∈ c :: cs →
      select v (c :: cs) dflt (a :: as) = .ok (true, v)) ∧
    (∀ v : String, v ≠ "" → v ≠ "latest" → v ∉ c :: cs →
      select v (c :: cs) dflt (a :: as) = .ok (false, "")) := by
  refine ⟨?_, ?_, ?_, ?_, ?_⟩
  · simp [select]
  · intro h1 h2
    simp [select, h1, h2]
  · simp [select]
  · intro v h1 h2 h3
    simp [select, h1, h2, h3]
  · intro v h1 h2 h3
    simp [select, h1, h2, h3]

/-- C8 witness: a token absent from the candidate list is rejected. -/
theorem select_resolution_witness :
    select "bogus" ["1.17"] "latest" ["1.17"] = .ok (false, "") :=
  (select_resolution "latest" "1.17" "1.17" [] []).2.2.2.2 "bogus"
    (by decide) (by decide) (by decide)

/-! ## Theorems about the orchestrator state update -/

/-- C10: `get_new` leaves the in-memory installed state unchanged on every
failure path — selection failure, user cancellation at the confirmation
prompt, download failure, install failure — and assigns the selected
(version, build) pair exactly when download and install both succeed. -/
theorem get_new_state (env : GetNewEnv) (version : String) (buildnum : BuildVal) :
    (env.selection = none → get_new env version buildnum = (version, buildnum)) ∧
    (env.prompt = true → pyLower env.confirmInput ∈ ["n", "no"] →
      get_new env version buildnum = (version, buildnum)) ∧
    (env.downloadOk = false → get_new env version buildnum = (version, buildnum)) ∧
    (env.installOk = false → get_new env version buildnum = (version, buildnum)) ∧
    (∀ ver build, env.selection = some (ver, build) →
      ¬(env.prompt = true ∧ pyLower env.confirmInput ∈ ["n", "no"]) →
      env.downloadOk = true → env.installOk = true →
      get_new env version buildnum = (ver, .str build)) := by
  obtain ⟨sel, pr, ci, dl, inst⟩ := env
  simp only
  refine ⟨?_, ?_, ?_, ?_, ?_⟩
  · intro h
    subst h
    rfl
  · intro hp hm
    subst hp
    cases sel with
    | none => rfl
    | some vb =>
      obtain ⟨v2, b2⟩ := vb
      simp [get_new, hm]
  · intro h
    subst h
    cases sel with
    | none => rfl
    | some vb =>
      obtain ⟨v2, b2⟩ := vb
      simp only [get_new]
      split
      · rfl
      · rfl
  · intro h
    subst h
    cases sel with
    | none => rfl
    | some vb =>
      obtain ⟨v2, b2⟩ := vb
      simp only [get_new]
      split
      · rfl
      · split
        · rfl
        · rfl
  · intro ver build hsel hnc hdl hinst
    subst hsel hdl hinst
    simp only [get_new]
    split
    · rename_i hc
      exact absurd hc hnc
    · rfl

/-- C10 witness: with a successful selection, no cancellation, and both
download and install succeeding, the state is assigned the selected pair. -/
theorem get_new_state_witness :
    get_new ⟨some ("1.16.5", "205"), false, "", true, true⟩ "1.16.5" (.int 200) =
      ("1.16.5", .str "205") :=
  (get_new_state ⟨some ("1.16.5", "205"), false, "", true, true⟩ "1.16.5"
      (.int 200)).2.2.2.2 "1.16.5" "205" rfl (by decide) rfl rfl

end ServerUpdate
